import Mathlib

/-!
Shallow embedding of the `embedded-types` crate (files `src/can/mod.rs` and
`src/io/mod.rs`).

Conventions of the embedding:
* machine integers (`u8`, `u16`, `u32`, `usize`) are modelled as `Nat`; none of
  the modelled operations overflow, and the zero-extending casts of the source
  (`u16 as u32`, `length as u8` under `length <= 8`) are the identity on `Nat`;
* a Rust `assert!`/`assert_eq!` failure (an unrecoverable panic) is modelled by
  returning `none`, so fallible constructors return `Option`;
* the fixed-size backing array `[u8; 8]` is modelled as a `List Nat`; the
  length-8 guarantee of the Rust type appears either as a hypothesis or as the
  reachability invariant proved below;
* the `loop`s of `blocking` and `write_all` are modelled by structural
  recursion on an explicit fuel argument, returning `none` when the fuel runs
  out before the loop exits; the invocation counter makes the number of calls
  to the underlying operation observable.
-/

namespace EmbeddedTypes

/-! ### Identifier model (`src/can/mod.rs`) -/

/-- `pub struct BaseID(u16);` -/
structure BaseID where
  val : Nat
  deriving DecidableEq, Repr

/-- `BaseID::new`: `assert_eq!(id & 0xf800, 0); BaseID(id)`. -/
def BaseID.new (id : Nat) : Option BaseID :=
  if id &&& 0xf800 = 0 then some ⟨id⟩ else none

/-- `impl From<BaseID> for u16` -/
def u16_from_BaseID (id : BaseID) : Nat := id.val

/-- `pub struct ExtendedID(u32);` -/
structure ExtendedID where
  val : Nat
  deriving DecidableEq, Repr

/-- `ExtendedID::new`: `assert_eq!(id & 0xe000_0000, 0); ExtendedID(id)`. -/
def ExtendedID.new (id : Nat) : Option ExtendedID :=
  if id &&& 0xe0000000 = 0 then some ⟨id⟩ else none

/-- `impl From<ExtendedID> for u32` -/
def u32_from_ExtendedID (id : ExtendedID) : Nat := id.val

/-- `pub enum ID { BaseID(BaseID), ExtendedID(ExtendedID) }` -/
inductive ID where
  | BaseID : BaseID → ID
  | ExtendedID : ExtendedID → ID
  deriving DecidableEq, Repr

/-- `impl From<ID> for u32`: `BaseID` is widened (`u16 as u32`, the identity on
`Nat`), `ExtendedID` passes through. -/
def u32_from_ID : ID → Nat
  | ID.BaseID x => u16_from_BaseID x
  | ID.ExtendedID x => u32_from_ExtendedID x

/-! ### Data frames (`src/can/mod.rs`) -/

/-- `pub struct BaseDataFrame { id: BaseID, dlc: u8, data: [u8; 8] }` -/
structure BaseDataFrame where
  id : BaseID
  dlc : Nat
  data : List Nat
  deriving DecidableEq, Repr

/-- `pub struct ExtendedDataFrame { id: ExtendedID, dlc: u8, data: [u8; 8] }` -/
structure ExtendedDataFrame where
  id : ExtendedID
  dlc : Nat
  data : List Nat
  deriving DecidableEq, Repr

/-- `BaseDataFrame::new`: `Self{id: id, dlc: 0, data: [0; 8]}`. -/
def BaseDataFrame.new (id : BaseID) : BaseDataFrame :=
  ⟨id, 0, List.replicate 8 0⟩

/-- `ExtendedDataFrame::new`: `Self{id: id, dlc: 0, data: [0; 8]}`. -/
def ExtendedDataFrame.new (id : ExtendedID) : ExtendedDataFrame :=
  ⟨id, 0, List.replicate 8 0⟩

/-- `BaseDataFrame::set_data_length`: `assert!(length <= 8); self.dlc = length as u8;`. -/
def BaseDataFrame.set_data_length (f : BaseDataFrame) (length : Nat) :
    Option BaseDataFrame :=
  if length ≤ 8 then some { f with dlc := length } else none

/-- `ExtendedDataFrame::set_data_length`: `assert!(length <= 8); self.dlc = length as u8;`. -/
def ExtendedDataFrame.set_data_length (f : ExtendedDataFrame) (length : Nat) :
    Option ExtendedDataFrame :=
  if length ≤ 8 then some { f with dlc := length } else none

/-- `BaseDataFrame::data`: the slice `&self.data[0..(self.dlc as usize)]`. -/
def BaseDataFrame.data_view (f : BaseDataFrame) : List Nat :=
  f.data.take f.dlc

/-- `ExtendedDataFrame::data`: the slice `&self.data[0..(self.dlc as usize)]`. -/
def ExtendedDataFrame.data_view (f : ExtendedDataFrame) : List Nat :=
  f.data.take f.dlc

/-- Writing the byte sequence `buf` through the mutable slice returned by
`BaseDataFrame::data_as_mut` (i.e. `&mut self.data[0..dlc]`): the write is
`data_as_mut().copy_from_slice(buf)`, which panics (`none`) unless `buf` has
exactly the slice's length, and otherwise replaces the first `buf.length`
bytes of the backing storage. -/
def BaseDataFrame.copy_into_data (f : BaseDataFrame) (buf : List Nat) :
    Option BaseDataFrame :=
  if buf.length = min f.dlc f.data.length then
    some { f with data := buf ++ f.data.drop buf.length }
  else none

/-- Writing through `ExtendedDataFrame::data_as_mut`, as for `BaseDataFrame`. -/
def ExtendedDataFrame.copy_into_data (f : ExtendedDataFrame) (buf : List Nat) :
    Option ExtendedDataFrame :=
  if buf.length = min f.dlc f.data.length then
    some { f with data := buf ++ f.data.drop buf.length }
  else none

/-- `pub enum DataFrame { BaseDataFrame(..), ExtendedDataFrame(..) }` -/
inductive DataFrame where
  | BaseDataFrame : BaseDataFrame → DataFrame
  | ExtendedDataFrame : ExtendedDataFrame → DataFrame
  deriving DecidableEq, Repr

/-- `DataFrame::new`: dispatch on the identifier kind. -/
def DataFrame.new : ID → DataFrame
  | ID.BaseID id => DataFrame.BaseDataFrame (BaseDataFrame.new id)
  | ID.ExtendedID id => DataFrame.ExtendedDataFrame (ExtendedDataFrame.new id)

/-- `DataFrame::set_data_length`: dispatch to the wrapped frame. -/
def DataFrame.set_data_length : DataFrame → Nat → Option DataFrame
  | DataFrame.BaseDataFrame f, n =>
      (f.set_data_length n).map DataFrame.BaseDataFrame
  | DataFrame.ExtendedDataFrame f, n =>
      (f.set_data_length n).map DataFrame.ExtendedDataFrame

/-- `DataFrame::data`: dispatch to the wrapped frame. -/
def DataFrame.data_view : DataFrame → List Nat
  | DataFrame.BaseDataFrame f => f.data_view
  | DataFrame.ExtendedDataFrame f => f.data_view

/-- Writing through `DataFrame::data_as_mut`: dispatch to the wrapped frame. -/
def DataFrame.copy_into_data : DataFrame → List Nat → Option DataFrame
  | DataFrame.BaseDataFrame f, b =>
      (f.copy_into_data b).map DataFrame.BaseDataFrame
  | DataFrame.ExtendedDataFrame f, b =>
      (f.copy_into_data b).map DataFrame.ExtendedDataFrame

/-- `DataFrame::id`. -/
def DataFrame.id : DataFrame → ID
  | DataFrame.BaseDataFrame f => ID.BaseID f.id
  | DataFrame.ExtendedDataFrame f => ID.ExtendedID f.id

/-- The declared length (`dlc` field) of either kind of data frame. -/
def DataFrame.dlc : DataFrame → Nat
  | DataFrame.BaseDataFrame f => f.dlc
  | DataFrame.ExtendedDataFrame f => f.dlc

/-- The full 8-byte backing storage (`data` field) of either kind of data frame. -/
def DataFrame.storage : DataFrame → List Nat
  | DataFrame.BaseDataFrame f => f.data
  | DataFrame.ExtendedDataFrame f => f.data

/-! ### Remote frames and `CanFrame` (`src/can/mod.rs`) -/

/-- `pub struct BaseRemoteFrame { id: BaseID, dlc: u8 }` -/
structure BaseRemoteFrame where
  id : BaseID
  dlc : Nat
  deriving DecidableEq, Repr

/-- `pub struct ExtendedRemoteFrame { id: ExtendedID, dlc: u8 }` -/
structure ExtendedRemoteFrame where
  id : ExtendedID
  dlc : Nat
  deriving DecidableEq, Repr

/-- `BaseRemoteFrame::new`: `Self{id: id, dlc: 0}`. -/
def BaseRemoteFrame.new (id : BaseID) : BaseRemoteFrame := ⟨id, 0⟩

/-- `ExtendedRemoteFrame::new`: `Self{id: id, dlc: 0}`. -/
def ExtendedRemoteFrame.new (id : ExtendedID) : ExtendedRemoteFrame := ⟨id, 0⟩

/-- `pub enum RemoteFrame { BaseRemoteFrame(..), ExtendedRemoteFrame(..) }` -/
inductive RemoteFrame where
  | BaseRemoteFrame : BaseRemoteFrame → RemoteFrame
  | ExtendedRemoteFrame : ExtendedRemoteFrame → RemoteFrame
  deriving DecidableEq, Repr

/-- `RemoteFrame::new`: dispatch on the identifier kind. -/
def RemoteFrame.new : ID → RemoteFrame
  | ID.BaseID id => RemoteFrame.BaseRemoteFrame (BaseRemoteFrame.new id)
  | ID.ExtendedID id => RemoteFrame.ExtendedRemoteFrame (ExtendedRemoteFrame.new id)

/-- `RemoteFrame::id`. -/
def RemoteFrame.id : RemoteFrame → ID
  | RemoteFrame.BaseRemoteFrame f => ID.BaseID f.id
  | RemoteFrame.ExtendedRemoteFrame f => ID.ExtendedID f.id

/-- `pub enum CanFrame { DataFrame(DataFrame), RemoteFrame(RemoteFrame) }` -/
inductive CanFrame where
  | DataFrame : DataFrame → CanFrame
  | RemoteFrame : RemoteFrame → CanFrame
  deriving DecidableEq, Repr

/-- `CanFrame::id`. -/
def CanFrame.id : CanFrame → ID
  | CanFrame.DataFrame f => f.id
  | CanFrame.RemoteFrame f => f.id

/-- `impl From<DataFrame> for CanFrame`. -/
def CanFrame.from_DataFrame (f : EmbeddedTypes.DataFrame) : CanFrame :=
  CanFrame.DataFrame f

/-- `impl From<RemoteFrame> for CanFrame`. -/
def CanFrame.from_RemoteFrame (f : EmbeddedTypes.RemoteFrame) : CanFrame :=
  CanFrame.RemoteFrame f

/-! ### I/O abstraction (`src/io/mod.rs`) -/

/-- `pub enum Error { BufferExhausted, InvalidInput, ErrorDetectionCode, Other }` -/
inductive Error where
  | BufferExhausted
  | InvalidInput
  | ErrorDetectionCode
  | Other
  deriving DecidableEq, Repr

/-- One pass of the `loop` of `blocking`, starting at invocation index `k`.
The closure `non_blocking : F` is modelled by the sequence of results its
successive invocations produce, `op : Nat → Except E O`; `conv` is the
`E: Into<Error>` conversion.  The result pairs the returned value with the
total number of invocations of `op`; `none` means the loop did not return
within `fuel` iterations. -/
def blockingRun {O E : Type} (conv : E → Error) (op : Nat → Except E O) :
    Nat → Nat → Option (Except E O × Nat)
  | 0, _ => none
  | fuel + 1, k =>
    match op k with
    | Except.error x =>
        if conv x = Error.BufferExhausted then blockingRun conv op fuel (k + 1)
        else some (Except.error x, k + 1)
    | Except.ok x => some (Except.ok x, k + 1)

/-- `pub fn blocking<F, O, E>(non_blocking: F) -> Result<O, E>`: retry in a
tight loop while the error converts to `Error::BufferExhausted`; return on the
first success or on any other error. -/
def blocking {O E : Type} (conv : E → Error) (op : Nat → Except E O)
    (fuel : Nat) : Option (Except E O × Nat) :=
  blockingRun conv op fuel 0

/-- A `Write` implementor: `write(&mut self, buf) -> Result<usize>` is a state
transformer on the implementor's state `W`. -/
structure Writer (W : Type) where
  write : W → List Nat → W × Except Error Nat

/-- One pass of the `while bytes_written < buf.len()` loop of the default
`Write::write_all`, with state `w`, progress counter `bytes_written` and a
counter of the calls to `write` made so far; `none` means the loop did not
finish within `fuel` iterations. -/
def writeAllRun {W : Type} (wr : Writer W) (buf : List Nat) :
    Nat → W → Nat → Nat → Option (W × Except Error Unit × Nat)
  | 0, _, _, _ => none
  | fuel + 1, w, bytes_written, calls =>
    if bytes_written < buf.length then
      match wr.write w (buf.drop bytes_written) with
      | (w2, Except.ok n) => writeAllRun wr buf fuel w2 (bytes_written + n) (calls + 1)
      | (w2, Except.error Error.BufferExhausted) =>
          writeAllRun wr buf fuel w2 bytes_written (calls + 1)
      | (w2, Except.error e) => some (w2, Except.error e, calls + 1)
    else some (w, Except.ok (), calls)

/-- `Write::write_all(&mut self, buf)`: run the loop from `bytes_written = 0`.
The result pairs the final writer state and returned `Result<()>` with the
number of calls made to `write`. -/
def write_all {W : Type} (wr : Writer W) (w : W) (buf : List Nat)
    (fuel : Nat) : Option (W × Except Error Unit × Nat) :=
  writeAllRun wr buf fuel w 0 0

/-- A `Write` implementor that accepts at most `K` bytes per call — it accepts
`min K buf.len()` bytes of each request — and never returns an error.  It
needs no state of its own. -/
def boundedWriter (K : Nat) : Writer Unit :=
  ⟨fun w buf => (w, Except.ok (min K buf.length))⟩

/-- The operation of the spec's concrete scenario for C2: `BufferExhausted` on
the first 3 invocations, then `Ok 42`. -/
def opThreeThen42 : Nat → Except Error Nat := fun k =>
  if k < 3 then Except.error Error.BufferExhausted else Except.ok 42

/-- The data-frame states reachable through the public operations: `new`,
a successful `set_data_length`, and a successful write through
`data_as_mut`. -/
inductive ReachableDataFrame : DataFrame → Prop where
  | new (id : ID) : ReachableDataFrame (DataFrame.new id)
  | set_len {f g : DataFrame} {n : Nat} : ReachableDataFrame f →
      f.set_data_length n = some g → ReachableDataFrame g
  | write {f g : DataFrame} {B : List Nat} : ReachableDataFrame f →
      f.copy_into_data B = some g → ReachableDataFrame g

/-! ### Theorems -/

/-- Dissection of a successful `set_data_length`: only the `dlc` field changes,
to the requested value, which the assertion bounds by 8. -/
theorem set_data_length_eq_some {f g : DataFrame} {n : Nat}
    (hset : f.set_data_length n = some g) :
    g.id = f.id ∧ g.storage = f.storage ∧ g.dlc = n ∧ n ≤ 8 := by
  cases f with
  | BaseDataFrame b =>
    simp only [DataFrame.set_data_length, BaseDataFrame.set_data_length,
      Option.map_eq_some'] at hset
    obtain ⟨b2, hb2, rfl⟩ := hset
    split at hb2
    · obtain rfl := Option.some.inj hb2
      simp_all [DataFrame.id, DataFrame.storage, DataFrame.dlc]
    · exact absurd hb2 (by simp)
  | ExtendedDataFrame b =>
    simp only [DataFrame.set_data_length, ExtendedDataFrame.set_data_length,
      Option.map_eq_some'] at hset
    obtain ⟨b2, hb2, rfl⟩ := hset
    split at hb2
    · obtain rfl := Option.some.inj hb2
      simp_all [DataFrame.id, DataFrame.storage, DataFrame.dlc]
    · exact absurd hb2 (by simp)

/-- Dissection of a successful write through `data_as_mut`: identifier and
declared length are unchanged, the written bytes replace the storage's head,
and the written sequence had exactly the slice's length. -/
theorem copy_into_data_eq_some {f g : DataFrame} {B : List Nat}
    (hcopy : f.copy_into_data B = some g) :
    g.id = f.id ∧ g.dlc = f.dlc ∧
      g.storage = B ++ f.storage.drop B.length ∧
      B.length = min f.dlc f.storage.length := by
  cases f with
  | BaseDataFrame b =>
    simp only [DataFrame.copy_into_data, BaseDataFrame.copy_into_data,
      Option.map_eq_some'] at hcopy
    obtain ⟨b2, hb2, rfl⟩ := hcopy
    split at hb2
    · obtain rfl := Option.some.inj hb2
      simp_all [DataFrame.id, DataFrame.storage, DataFrame.dlc]
    · exact absurd hb2 (by simp)
  | ExtendedDataFrame b =>
    simp only [DataFrame.copy_into_data, ExtendedDataFrame.copy_into_data,
      Option.map_eq_some'] at hcopy
    obtain ⟨b2, hb2, rfl⟩ := hcopy
    split at hb2
    · obtain rfl := Option.some.inj hb2
      simp_all [DataFrame.id, DataFrame.storage, DataFrame.dlc]
    · exact absurd hb2 (by simp)

/-- The `data()` view of either kind of data frame is by definition the
`dlc`-byte head of the backing storage. -/
theorem data_view_eq_take (f : DataFrame) :
    f.data_view = f.storage.take f.dlc := by
  cases f <;> rfl

/-- Claim C1: for every value `v` with `v &&& 0xF800 = 0`, `BaseID::new v`
succeeds and converting back to the integer yields `v`; for every `v` with
`v &&& 0xF800 ≠ 0` the construction fails fast.  Symmetrically for
`ExtendedID` with the mask `0xE0000000`. -/
theorem baseid_extid_new_roundtrip (v : Nat) :
    ((v &&& 0xf800 = 0 → (BaseID.new v).map u16_from_BaseID = some v) ∧
      (v &&& 0xf800 ≠ 0 → BaseID.new v = none)) ∧
    ((v &&& 0xe0000000 = 0 → (ExtendedID.new v).map u32_from_ExtendedID = some v) ∧
      (v &&& 0xe0000000 ≠ 0 → ExtendedID.new v = none)) := by
  refine ⟨⟨fun h => ?_, fun h => ?_⟩, ⟨fun h => ?_, fun h => ?_⟩⟩ <;>
    simp [BaseID.new, ExtendedID.new, u16_from_BaseID, u32_from_ExtendedID, h]

/-- Witness for C1 at the concrete values `0x123`, `0xF800`, `0x1FFFFFFF` and
`0x20000000`. -/
theorem baseid_extid_new_roundtrip_witness :
    (BaseID.new 0x123).map u16_from_BaseID = some 0x123 ∧
    BaseID.new 0xF800 = none ∧
    (ExtendedID.new 0x1FFFFFFF).map u32_from_ExtendedID = some 0x1FFFFFFF ∧
    ExtendedID.new 0x20000000 = none :=
  ⟨(baseid_extid_new_roundtrip 0x123).1.1 (by decide),
   (baseid_extid_new_roundtrip 0xF800).1.2 (by decide),
   (baseid_extid_new_roundtrip 0x1FFFFFFF).2.1 (by decide),
   (baseid_extid_new_roundtrip 0x20000000).2.2 (by decide)⟩

/-- The loop of `blocking`, started at invocation index `k`: if the next `n`
invocations all fail with an error converting to `BufferExhausted` and the one
after succeeds, the loop returns that success after exactly `n + 1` further
invocations. -/
theorem blockingRun_ok {O E : Type} (conv : E → Error) (op : Nat → Except E O)
    (v : O) :
    ∀ (n k fuel : Nat),
      (∀ j, j < n → ∃ e, op (k + j) = Except.error e ∧
        conv e = Error.BufferExhausted) →
      op (k + n) = Except.ok v → n < fuel →
      blockingRun conv op fuel k = some (Except.ok v, k + n + 1) := by
  intro n
  induction n with
  | zero =>
    intro k fuel _ hok hfuel
    cases fuel with
    | zero => omega
    | succ f => simp only [blockingRun]; rw [Nat.add_zero] at hok; rw [hok]
  | succ n ih =>
    intro k fuel herr hok hfuel
    cases fuel with
    | zero => omega
    | succ f =>
      obtain ⟨e0, he0, hbe0⟩ := herr 0 (Nat.succ_pos n)
      rw [Nat.add_zero] at he0
      simp only [blockingRun]
      rw [he0]
      simp only [hbe0, if_pos rfl]
      rw [show k + (n + 1) + 1 = (k + 1) + n + 1 from by omega]
      refine ih (k + 1) f ?_ ?_ (by omega)
      · intro j hj
        obtain ⟨e, he, hbe⟩ := herr (j + 1) (by omega)
        exact ⟨e, by rwa [show k + 1 + j = k + (j + 1) from by omega], hbe⟩
      · rwa [show k + 1 + n = k + (n + 1) from by omega]

/-- Claim C2: if `op` fails with an error converting to `BufferExhausted` on
its first `n` invocations and succeeds with `v` on invocation `n`, then
`blocking op` returns `Ok v` after exactly `n + 1` invocations of `op` — it
retries exactly while `op` fails with `BufferExhausted` and returns on the
first success. -/
theorem blocking_retries_until_ok {O E : Type} (conv : E → Error)
    (op : Nat → Except E O) (n : Nat) (v : O)
    (herr : ∀ k, k < n → ∃ e, op k = Except.error e ∧
      conv e = Error.BufferExhausted)
    (hok : op n = Except.ok v) (fuel : Nat) (hfuel : n < fuel) :
    blocking conv op fuel = some (Except.ok v, n + 1) := by
  have h := blockingRun_ok conv op v n 0 fuel
    (fun j hj => by simpa using herr j hj) (by simpa using hok) hfuel
  simpa [blocking] using h

/-- Witness for C2: on `opThreeThen42`, `blocking` returns `Ok 42` after
exactly 4 invocations. -/
theorem blocking_retries_until_ok_witness :
    blocking id opThreeThen42 4 = some (Except.ok 42, 4) :=
  blocking_retries_until_ok id opThreeThen42 3 42
    (fun k hk => ⟨Error.BufferExhausted, by simp [opThreeThen42, hk], rfl⟩)
    (by simp [opThreeThen42]) 4 (by omega)

/-- Claim C3: if the first invocation of `op` fails with an error that does not
convert to `BufferExhausted`, `blocking op` returns that very error after
exactly one invocation of `op`. -/
theorem blocking_forwards_other_error {O E : Type} (conv : E → Error)
    (op : Nat → Except E O) (e : E) (h0 : op 0 = Except.error e)
    (hne : conv e ≠ Error.BufferExhausted) (fuel : Nat) (hfuel : 0 < fuel) :
    blocking conv op fuel = some (Except.error e, 1) := by
  cases fuel with
  | zero => omega
  | succ f => simp [blocking, blockingRun, h0, hne]

/-- Witness for C3: an operation failing with `InvalidInput` is returned
unchanged after one invocation. -/
theorem blocking_forwards_other_error_witness :
    blocking id (fun _ => (Except.error Error.InvalidInput : Except Error Nat))
      5 = some (Except.error Error.InvalidInput, 1) :=
  blocking_forwards_other_error id _ Error.InvalidInput rfl (by decide) 5
    (by omega)

/-- Claim C6: the widening conversion of `ID` to `u32` zero-extends a
`BaseID` (on `Nat`, keeps its `u16` value) and passes an `ExtendedID` through
unchanged. -/
theorem u32_from_ID_cases :
    (∀ b : BaseID, u32_from_ID (ID.BaseID b) = u16_from_BaseID b) ∧
    (∀ e : ExtendedID, u32_from_ID (ID.ExtendedID e) = u32_from_ExtendedID e) :=
  ⟨fun _ => rfl, fun _ => rfl⟩

/-- Claim C9: `DataFrame::new id` is bound to `id` with an empty payload view,
`RemoteFrame::new id` is bound to `id`, and wrapping any frame into `CanFrame`
preserves the identifier. -/
theorem new_id_and_canframe_id :
    (∀ id : ID, (DataFrame.new id).id = id ∧ (DataFrame.new id).data_view = []) ∧
    (∀ id : ID, (RemoteFrame.new id).id = id) ∧
    (∀ f : DataFrame, (CanFrame.from_DataFrame f).id = f.id) ∧
    (∀ r : RemoteFrame, (CanFrame.from_RemoteFrame r).id = r.id) := by
  refine ⟨fun id => ?_, fun id => ?_, fun f => rfl, fun r => rfl⟩ <;>
    cases id <;> simp [DataFrame.new, DataFrame.id, DataFrame.data_view,
      BaseDataFrame.new, ExtendedDataFrame.new, BaseDataFrame.data_view,
      ExtendedDataFrame.data_view, RemoteFrame.new, RemoteFrame.id,
      BaseRemoteFrame.new, ExtendedRemoteFrame.new]

/-- Claim C4: for a data frame of either kind (with its 8-byte backing
storage), `set_data_length n` with `n ≤ 8` succeeds and the slice returned by
`data()` then has length exactly `n`; with `n > 8` it fails fast. -/
theorem set_data_length_spec (f : DataFrame) (n : Nat)
    (hstorage : f.storage.length = 8) :
    (n ≤ 8 → ∃ g, f.set_data_length n = some g ∧ g.data_view.length = n) ∧
    (8 < n → f.set_data_length n = none) := by
  cases f with
  | BaseDataFrame b =>
    simp only [DataFrame.storage] at hstorage
    constructor
    · intro hn
      refine ⟨DataFrame.BaseDataFrame { b with dlc := n }, ?_, ?_⟩
      · simp [DataFrame.set_data_length, BaseDataFrame.set_data_length, hn]
      · simp only [DataFrame.data_view, BaseDataFrame.data_view,
          List.length_take]
        omega
    · intro hn
      simp [DataFrame.set_data_length, BaseDataFrame.set_data_length]
      omega
  | ExtendedDataFrame b =>
    simp only [DataFrame.storage] at hstorage
    constructor
    · intro hn
      refine ⟨DataFrame.ExtendedDataFrame { b with dlc := n }, ?_, ?_⟩
      · simp [DataFrame.set_data_length, ExtendedDataFrame.set_data_length, hn]
      · simp only [DataFrame.data_view, ExtendedDataFrame.data_view,
          List.length_take]
        omega
    · intro hn
      simp [DataFrame.set_data_length, ExtendedDataFrame.set_data_length]
      omega

/-- Witness for C4 on a fresh base frame: length 3 succeeds with a 3-byte
view, length 9 fails fast. -/
theorem set_data_length_spec_witness :
    (∃ g, (DataFrame.new (ID.BaseID ⟨0x123⟩)).set_data_length 3 = some g ∧
      g.data_view.length = 3) ∧
    (DataFrame.new (ID.BaseID ⟨0x123⟩)).set_data_length 9 = none :=
  ⟨(set_data_length_spec (DataFrame.new (ID.BaseID ⟨0x123⟩)) 3 (by decide)).1
      (by omega),
   (set_data_length_spec (DataFrame.new (ID.BaseID ⟨0x123⟩)) 9 (by decide)).2
      (by omega)⟩

/-- Claim C5: for a data frame of either kind, any `L ≤ 8` and any byte list
`B` of length `L`, setting the length to `L` and then writing `B` through
`data_as_mut()` produces a frame whose `data()` slice is exactly `B`. -/
theorem payload_write_read_roundtrip (f : DataFrame) (L : Nat) (B : List Nat)
    (hL : L ≤ 8) (hstorage : f.storage.length = 8) (hB : B.length = L) :
    ∃ g h, f.set_data_length L = some g ∧ g.copy_into_data B = some h ∧
      h.data_view = B := by
  cases f with
  | BaseDataFrame b =>
    simp only [DataFrame.storage] at hstorage
    refine ⟨DataFrame.BaseDataFrame ⟨b.id, L, b.data⟩,
      DataFrame.BaseDataFrame ⟨b.id, L, B ++ b.data.drop B.length⟩, ?_, ?_, ?_⟩
    · simp [DataFrame.set_data_length, BaseDataFrame.set_data_length, hL]
    · simp only [DataFrame.copy_into_data, BaseDataFrame.copy_into_data]
      rw [if_pos (by simp [hstorage]; omega)]
      simp
    · simp only [DataFrame.data_view, BaseDataFrame.data_view]
      subst hB
      simp [List.take_append_eq_append_take]
  | ExtendedDataFrame b =>
    simp only [DataFrame.storage] at hstorage
    refine ⟨DataFrame.ExtendedDataFrame ⟨b.id, L, b.data⟩,
      DataFrame.ExtendedDataFrame ⟨b.id, L, B ++ b.data.drop B.length⟩, ?_, ?_, ?_⟩
    · simp [DataFrame.set_data_length, ExtendedDataFrame.set_data_length, hL]
    · simp only [DataFrame.copy_into_data, ExtendedDataFrame.copy_into_data]
      rw [if_pos (by simp [hstorage]; omega)]
      simp
    · simp only [DataFrame.data_view, ExtendedDataFrame.data_view]
      subst hB
      simp [List.take_append_eq_append_take]

/-- Witness for C5: the spec's end-to-end scenario — fresh frame for base id
`0x123`, length 3, payload `[0xDE, 0xAD, 0xBE]` read back unchanged. -/
theorem payload_write_read_roundtrip_witness :
    ∃ g h, (DataFrame.new (ID.BaseID ⟨0x123⟩)).set_data_length 3 = some g ∧
      g.copy_into_data [0xDE, 0xAD, 0xBE] = some h ∧
      h.data_view = [0xDE, 0xAD, 0xBE] :=
  payload_write_read_roundtrip (DataFrame.new (ID.BaseID ⟨0x123⟩)) 3
    [0xDE, 0xAD, 0xBE] (by omega) (by decide) (by decide)

/-- Claim C10: `set_data_length` changes only the declared length — identifier
and the whole backing storage are untouched; consequently growing a fresh
frame exposes zero bytes, and two successive length changes leave the storage
as it was, so re-growing re-exposes previously written bytes. -/
theorem set_data_length_frame_effect :
    (∀ (f : DataFrame) (n : Nat) (g : DataFrame),
      f.set_data_length n = some g →
        g.id = f.id ∧ g.storage = f.storage ∧ g.dlc = n) ∧
    (∀ (id : ID) (n : Nat) (g : DataFrame),
      (DataFrame.new id).set_data_length n = some g →
        g.data_view = List.replicate n 0) ∧
    (∀ (f : DataFrame) (n₁ n₂ : Nat) (g h : DataFrame),
      f.set_data_length n₁ = some g → g.set_data_length n₂ = some h →
        h.storage = f.storage) := by
  have key : ∀ (f : DataFrame) (n : Nat) (g : DataFrame),
      f.set_data_length n = some g →
        g.id = f.id ∧ g.storage = f.storage ∧ g.dlc = n ∧ n ≤ 8 :=
    fun _ _ _ hset => set_data_length_eq_some hset
  refine ⟨fun f n g hset => ⟨(key f n g hset).1, (key f n g hset).2.1,
    (key f n g hset).2.2.1⟩, fun id n g hset => ?_, fun f n₁ n₂ g h hg hh =>
      ((key g n₂ h hh).2.1).trans (key f n₁ g hg).2.1⟩
  obtain ⟨hid, hstor, hdlc, hn⟩ := key _ n g hset
  have hfresh : (DataFrame.new id).storage = List.replicate 8 0 := by
    cases id <;> rfl
  have hview : g.data_view = g.storage.take g.dlc := by
    cases g <;> rfl
  rw [hview, hstor, hfresh, hdlc, List.take_replicate,
    Nat.min_eq_left hn]

/-- Witness for C10 on a fresh base frame: setting length 3 keeps identifier
and storage, exposes three zero bytes, and a second length change (3 then 5)
keeps the storage of the original frame. -/
theorem set_data_length_frame_effect_witness :
    ((DataFrame.BaseDataFrame ⟨⟨0x123⟩, 3, List.replicate 8 0⟩).id
        = (DataFrame.new (ID.BaseID ⟨0x123⟩)).id ∧
      (DataFrame.BaseDataFrame ⟨⟨0x123⟩, 3, List.replicate 8 0⟩).storage
        = (DataFrame.new (ID.BaseID ⟨0x123⟩)).storage ∧
      (DataFrame.BaseDataFrame ⟨⟨0x123⟩, 3, List.replicate 8 0⟩).dlc = 3) ∧
    (DataFrame.BaseDataFrame ⟨⟨0x123⟩, 3, List.replicate 8 0⟩).data_view
      = List.replicate 3 0 ∧
    (DataFrame.BaseDataFrame ⟨⟨0x123⟩, 5, List.replicate 8 0⟩).storage
      = (DataFrame.new (ID.BaseID ⟨0x123⟩)).storage :=
  ⟨set_data_length_frame_effect.1 (DataFrame.new (ID.BaseID ⟨0x123⟩)) 3
      (DataFrame.BaseDataFrame ⟨⟨0x123⟩, 3, List.replicate 8 0⟩) (by decide),
   set_data_length_frame_effect.2.1 (ID.BaseID ⟨0x123⟩) 3
      (DataFrame.BaseDataFrame ⟨⟨0x123⟩, 3, List.replicate 8 0⟩) (by decide),
   set_data_length_frame_effect.2.2 (DataFrame.new (ID.BaseID ⟨0x123⟩)) 3 5
      (DataFrame.BaseDataFrame ⟨⟨0x123⟩, 3, List.replicate 8 0⟩)
      (DataFrame.BaseDataFrame ⟨⟨0x123⟩, 5, List.replicate 8 0⟩)
      (by decide) (by decide)⟩

/-- Claim C8: in every data-frame state reachable through the public
operations, the declared length never exceeds 8, the backing storage keeps its
8 bytes, and the `data()` view is exactly the first `dlc` bytes of the backing
storage — so no byte beyond the declared length is observable through it. -/
theorem reachable_dataframe_invariant (f : DataFrame)
    (hf : ReachableDataFrame f) :
    f.dlc ≤ 8 ∧ f.storage.length = 8 ∧
      f.data_view = f.storage.take f.dlc ∧ f.data_view.length = f.dlc := by
  have core : f.dlc ≤ 8 ∧ f.storage.length = 8 := by
    induction hf with
    | new id =>
      cases id <;>
        simp [DataFrame.new, DataFrame.dlc, DataFrame.storage,
          BaseDataFrame.new, ExtendedDataFrame.new]
    | set_len hr hset ih =>
      obtain ⟨_, hstor, hdlc, hn⟩ := set_data_length_eq_some hset
      exact ⟨by omega, by rw [hstor]; exact ih.2⟩
    | write hr hcopy ih =>
      obtain ⟨_, hdlc, hstor, hB⟩ := copy_into_data_eq_some hcopy
      refine ⟨by omega, ?_⟩
      rw [hstor]
      simp only [List.length_append, List.length_drop]
      omega
  refine ⟨core.1, core.2, data_view_eq_take f, ?_⟩
  rw [data_view_eq_take f]
  simp only [List.length_take]
  omega

/-- Witness for C8 at the freshly constructed frame for base id `0x123`. -/
theorem reachable_dataframe_invariant_witness :
    (DataFrame.new (ID.BaseID ⟨0x123⟩)).dlc ≤ 8 ∧
    (DataFrame.new (ID.BaseID ⟨0x123⟩)).storage.length = 8 ∧
    (DataFrame.new (ID.BaseID ⟨0x123⟩)).data_view
      = (DataFrame.new (ID.BaseID ⟨0x123⟩)).storage.take
          (DataFrame.new (ID.BaseID ⟨0x123⟩)).dlc ∧
    (DataFrame.new (ID.BaseID ⟨0x123⟩)).data_view.length
      = (DataFrame.new (ID.BaseID ⟨0x123⟩)).dlc :=
  reachable_dataframe_invariant (DataFrame.new (ID.BaseID ⟨0x123⟩))
    (ReachableDataFrame.new (ID.BaseID ⟨0x123⟩))

/-- Ceiling-division step: consuming `min K r` of a positive remainder `r`
costs exactly one of the `⌈r / K⌉` rounds. -/
theorem ceil_div_step (K r : Nat) (hK : 1 ≤ K) (hr : 1 ≤ r) :
    (r + K - 1) / K = 1 + (r - min K r + K - 1) / K := by
  rw [show r + K - 1 = (r - 1) + K from by omega,
    Nat.add_div_right _ (by omega)]
  rcases Nat.le_total K r with h | h
  · rw [Nat.min_eq_left h, show r - K + K - 1 = r - 1 from by omega]
    exact Nat.add_comm _ _
  · rw [Nat.min_eq_right h, show r - r + K - 1 = K - 1 from by omega]
    have h1 : (r - 1) / K = 0 := Nat.div_eq_of_lt (by omega)
    have h2 : (K - 1) / K = 0 := Nat.div_eq_of_lt (by omega)
    rw [h1, h2]

/-- The `write_all` loop over the bounded writer: starting from progress `bw`,
it finishes successfully, making exactly `⌈(buf.length - bw) / K⌉` further
calls to `write`. -/
theorem writeAllRun_bounded (K : Nat) (hK : 1 ≤ K) (buf : List Nat) :
    ∀ (fuel bw calls : Nat), buf.length - bw < fuel →
      writeAllRun (boundedWriter K) buf fuel () bw calls =
        some ((), Except.ok (), calls + (buf.length - bw + K - 1) / K) := by
  intro fuel
  induction fuel with
  | zero =>
    intro bw calls h
    omega
  | succ f ih =>
    intro bw calls h
    by_cases hbw : bw < buf.length
    · rw [show writeAllRun (boundedWriter K) buf (f + 1) () bw calls =
          writeAllRun (boundedWriter K) buf f ()
            (bw + min K (buf.length - bw)) (calls + 1) from by
        simp [writeAllRun, hbw, boundedWriter]]
      rw [ih (bw + min K (buf.length - bw)) (calls + 1) (by omega)]
      rw [show buf.length - (bw + min K (buf.length - bw)) =
        (buf.length - bw) - min K (buf.length - bw) from by omega]
      rw [ceil_div_step K (buf.length - bw) hK (by omega)]
      rw [Nat.add_assoc]
    · simp only [writeAllRun, if_neg hbw]
      rw [show buf.length - bw = 0 from by omega]
      rw [show 0 + K - 1 = K - 1 from by omega,
        Nat.div_eq_of_lt (by omega), Nat.add_zero]

/-- Claim C7: over a `Write` implementor that accepts at most `K ≥ 1` bytes
per call (accepting `min K remaining` each time) and never errors, `write_all`
on a buffer longer than `K` returns `Ok(())` after exactly `⌈M / K⌉` calls to
`write`, `M` being the buffer length. -/
theorem write_all_bounded_count (K : Nat) (buf : List Nat) (hK : 1 ≤ K)
    (_hM : K < buf.length) :
    write_all (boundedWriter K) () buf (buf.length + 1) =
      some ((), Except.ok (), (buf.length + K - 1) / K) := by
  have h := writeAllRun_bounded K hK buf (buf.length + 1) 0 0 (by omega)
  simpa [write_all] using h

/-- Witness for C7 with `K = 3` and an 8-byte buffer: success after exactly
`⌈8 / 3⌉ = 3` calls. -/
theorem write_all_bounded_count_witness :
    write_all (boundedWriter 3) () (List.replicate 8 1) 9 =
      some ((), Except.ok (), 3) := by
  have h := write_all_bounded_count 3 (List.replicate 8 1) (by omega) (by simp)
  simpa using h

end EmbeddedTypes
